import Mathlib

/-
Verification of the subagent orchestration engine of letta-code
(src/agent/subagents/manager.ts, provided as src/unnamed/part_001).

The engine is embedded shallowly: the stream-event processor is a pure
state-transition function over an explicit ExecutionState; the process
supervisor, settings store, model-resolution server and signal are
abstracted into a World record of oracles; executeSubagent and
spawnSubagent are fuel-indexed total functions returning the
SubagentResult together with the trace of child spawns.
-/

namespace LettaSubagent

/-! ## JavaScript truthiness helpers

JS strings are falsy exactly when empty; `a || b` on strings yields `b`
when `a` is the empty string, undefined or null. -/

/-- Truthy projection of a string: `none` when empty. -/
def strTruthy (s : String) : Option String :=
  if s = "" then none else some s

/-- Truthy projection of an optional string: collapses `some ""` to `none`. -/
def optTruthy : Option String → Option String
  | some s => strTruthy s
  | none => none

/-- JS `o || d` on an optional string. -/
def jsOr (o : Option String) (d : String) : String :=
  (optTruthy o).getD d

/-- Character-level prefix test (structural, so that concrete claims can be
settled by kernel evaluation). -/
def charsPrefix : List Char → List Char → Bool
  | [], _ => true
  | _ :: _, [] => false
  | p :: ps, c :: cs => p == c && charsPrefix ps cs

/-- Character-level substring search. -/
def charsContains (pat : List Char) : List Char → Bool
  | [] => pat.isEmpty
  | c :: rest => charsPrefix pat (c :: rest) || charsContains pat rest

/-- JS `String.prototype.includes`. -/
def includesSubstr (s pat : String) : Bool :=
  charsContains pat.toList s.toList

/-- JS `String.prototype.startsWith`. -/
def startsWithStr (s pat : String) : Bool :=
  charsPrefix pat.toList s.toList

/-- Whitespace stripped by JS trim (ASCII subset, which covers the protocol
text handled here). -/
def isJsWhitespace (c : Char) : Bool :=
  c == ' ' || c == '\t' || c == '\n' || c == '\r'

/-- JS `String.prototype.trim`. -/
def trimString (s : String) : String :=
  String.mk (((s.toList.dropWhile isJsWhitespace).reverse.dropWhile isJsWhitespace).reverse)

/-- JS `String.prototype.toLowerCase` (ASCII, which covers the classifier
phrases matched here). -/
def lowerString (s : String) : String :=
  String.mk (s.toList.map Char.toLower)

/-- Split a character list at newlines, JS `split` with separator newline. -/
def splitOnNewline : List Char → List (List Char)
  | [] => [[]]
  | c :: rest =>
      let r := splitOnNewline rest
      if c == '\n' then [] :: r
      else
        match r with
        | h :: t => (c :: h) :: t
        | [] => [[c]]

/-! ## Constants (src/unnamed/part_001, lines 201-203) -/

def MAX_TRANSIENT_RETRIES : Nat := 2

def RETRY_BASE_DELAY_MS : Nat := 800

def RETRY_MAX_DELAY_MS : Nat := 8000

/-- Modelled from the spec: the INTERRUPTED_BY_USER constant is imported from
src/constants, which is not part of the provided sources; Scenario D of the
spec fixes its value to the string "Interrupted by user". -/
def INTERRUPTED_BY_USER : String := "Interrupted by user"

/-! ## Failure classification (src/unnamed/part_001, lines 170-199, 350-374) -/

/-- Check if an error message indicates an unsupported provider. -/
def isProviderNotSupportedError (errorOutput : String) : Bool :=
  includesSubstr errorOutput "Provider" &&
  includesSubstr errorOutput "is not supported" &&
  includesSubstr errorOutput "supported providers:"

/-- Check if an error message indicates an unknown or unavailable model. -/
def isUnknownModelError (errorOutput : String) : Bool :=
  includesSubstr errorOutput "Unknown model" ||
  includesSubstr errorOutput "Error: Unknown model"

/-- Check if an error message indicates a rate limit or temporary
unavailability. -/
def isRateLimitError (errorOutput : String) : Bool :=
  let lowerError := lowerString errorOutput
  includesSubstr lowerError "rate limit" ||
  includesSubstr lowerError "rate_limit" ||
  includesSubstr lowerError "ratelimit" ||
  includesSubstr lowerError "too many requests" ||
  includesSubstr lowerError "429" ||
  includesSubstr lowerError "temporarily unavailable" ||
  includesSubstr lowerError "temporarily disabled" ||
  includesSubstr lowerError "model is currently unavailable" ||
  includesSubstr lowerError "capacity" ||
  includesSubstr lowerError "overloaded"

/-- Check if an error likely came from transient transport or network
instability. -/
def isTransientTransportError (errorOutput : String) : Bool :=
  let lowerError := lowerString errorOutput
  includesSubstr lowerError "readerror" ||
  includesSubstr lowerError "httpx.readerror" ||
  includesSubstr lowerError "httpcore.readerror" ||
  includesSubstr lowerError "connection reset" ||
  includesSubstr lowerError "connection aborted" ||
  includesSubstr lowerError "broken pipe" ||
  includesSubstr lowerError "timed out" ||
  includesSubstr lowerError "timeout" ||
  includesSubstr lowerError "failed to connect" ||
  includesSubstr lowerError "econnreset" ||
  includesSubstr lowerError "econnrefused" ||
  includesSubstr lowerError "socket hang up" ||
  includesSubstr lowerError "stream was cancelled" ||
  includesSubstr lowerError "stream ended"

/-- Decide whether a terminal attempt error feeds the outer retry loop. -/
def isRetryableSubagentError : Option String → Bool
  | none => false
  | some m => if m = "" then false
      else isRateLimitError m || isTransientTransportError m

/-! ## Retry backoff (src/unnamed/part_001, lines 205-235)

The jitter argument stands for the sampled value floor(Math.random()*300). -/

/-- Compute the backoff delay for a retry attempt; the cap is applied both to
the exponential base and again after adding jitter. -/
def computeRetryDelayMs (attempt : Nat) (jitter : Nat) : Nat :=
  let base := min RETRY_MAX_DELAY_MS (RETRY_BASE_DELAY_MS * 2 ^ (attempt - 1))
  min RETRY_MAX_DELAY_MS (base + jitter)

/-- Cancellable backoff wait: returns false exactly when the abort signal has
fired by the time the wait ends (including when it was already aborted on
entry); the promise resolves either by timer or by the abort listener, and no
error is raised either way. -/
def waitForRetryDelay (_delayMs : Nat) (abortFired : Bool) : Bool :=
  !abortFired

/-! ## Stream events

One JSON line of the child protocol, after parsing. Constructors mirror the
shapes read by processStreamEvent; absent JSON fields are `none`. A line that
JSON-parses to a value with an unrecognized or missing `type` is `other`. -/

/-- One tool call object carried by a message event. -/
structure ToolCallChunk where
  tool_call_id : Option String
  name : Option String
  arguments : Option String
  deriving Repr, DecidableEq

/-- A parsed stream event. `wrapped` is the optional outer envelope of shape
type = stream_event with an `event` payload (none when the payload field is
absent or falsy). -/
inductive StreamEvent where
  | init (agent_id conversation_id : Option String)
  | system (subtype : Option String) (agent_id conversation_id : Option String)
  | message (message_type : Option String)
      (tool_calls : Option (List ToolCallChunk)) (tool_call : Option ToolCallChunk)
  | auto_approval (tool_call : Option ToolCallChunk)
  | result (result : Option String) (is_error : Bool)
      (duration_ms : Option Nat) (total_tokens : Option Nat)
  | error (error message : Option String)
  | wrapped (event : Option StreamEvent)
  | other
  deriving Repr

/-- Accumulated name and argument fragments for one pending tool call. -/
structure PendingCall where
  name : String
  args : String
  deriving Repr, DecidableEq

/-- Terminal usage statistics captured from a result event. -/
structure ResultStats where
  durationMs : Nat
  totalTokens : Nat
  deriving Repr, DecidableEq

/-- State tracked during one subagent execution attempt
(src/unnamed/part_001, lines 71-79). The pending map is an association list
in insertion order, matching JS Map iteration order. -/
structure ExecutionState where
  agentId : Option String
  conversationId : Option String
  finalResult : Option String
  finalError : Option String
  resultStats : Option ResultStats
  displayedToolCalls : List String
  pendingToolCalls : List (String × PendingCall)
  deriving Repr, DecidableEq

/-- Observable side effects of stream processing. `toolCallReported` is the
pair of effects of recordToolCall: the addToolCall state-store write plus the
onProgress callback. `toolCallUpdated` is the updateToolCall refresh write for
an already-reported call. `idsReported` covers the updateSubagent identity
writes plus the ids progress callback; `statsUpdated` the final stats write. -/
inductive TraceEntry where
  | toolCallReported (id name args : String)
  | toolCallUpdated (id : String)
  | idsReported (agentId conversationId : Option String)
  | statsUpdated (durationMs totalTokens : Nat)
  deriving Repr, DecidableEq

/-- Lookup in the insertion-ordered pending map. -/
def mapLookup (m : List (String × PendingCall)) (k : String) : Option PendingCall :=
  (m.find? (fun p => p.1 == k)).map (·.2)

/-- JS Map.set: update in place when the key exists, else append. -/
def mapSet (m : List (String × PendingCall)) (k : String) (v : PendingCall) :
    List (String × PendingCall) :=
  if (m.find? (fun p => p.1 == k)).isSome then
    m.map (fun p => if p.1 == k then (k, v) else p)
  else m ++ [(k, v)]

/-- Record a tool call to the state store and fire the progress callback,
deduplicated against the reported-id set (src/unnamed/part_001, lines
379-395). Returns the updated reported set and the emitted trace. -/
def recordToolCall (toolCallId toolName toolArgs : String)
    (displayedToolCalls : List String) : List String × List TraceEntry :=
  if toolCallId = "" || toolName = "" || displayedToolCalls.contains toolCallId then
    (displayedToolCalls, [])
  else
    (toolCallId :: displayedToolCalls, [TraceEntry.toolCallReported toolCallId toolName toolArgs])

/-- Sequence a state-and-trace step over a list, concatenating traces. -/
def foldSteps (f : α → ExecutionState → ExecutionState × List TraceEntry) :
    List α → ExecutionState → ExecutionState × List TraceEntry
  | [], s => (s, [])
  | x :: xs, s =>
      let p := f x s
      let q := foldSteps f xs p.1
      (q.1, p.2 ++ q.2)

/-- Normalize the tool_calls / tool_call fields of a message event to a list. -/
def toolCallList (tool_calls : Option (List ToolCallChunk))
    (tool_call : Option ToolCallChunk) : List ToolCallChunk :=
  match tool_calls with
  | some l => l
  | none =>
      match tool_call with
      | some tc => [tc]
      | none => []

/-- Process one chunk of a tool_call_message event (src/unnamed/part_001,
lines 129-164): append the argument fragment, refresh an already-reported
call, or report it once it has an id and a name. -/
def processToolCallChunk (tc : ToolCallChunk) (s : ExecutionState) :
    ExecutionState × List TraceEntry :=
  match optTruthy tc.tool_call_id with
  | none => (s, [])
  | some id =>
      let prev := (mapLookup s.pendingToolCalls id).getD ⟨"", ""⟩
      let name := jsOr tc.name prev.name
      let args := prev.args ++ jsOr tc.arguments ""
      let s1 := { s with pendingToolCalls := mapSet s.pendingToolCalls id ⟨name, args⟩ }
      let normalizedArgs := if args = "" then "\x7b\x7d" else args
      if s1.displayedToolCalls.contains id then
        (s1, [TraceEntry.toolCallUpdated id])
      else if name != "" then
        let r := recordToolCall id name normalizedArgs s1.displayedToolCalls
        ({ s1 with displayedToolCalls := r.1 }, r.2)
      else (s1, [])

/-- Handle tool_call_message chunks (src/unnamed/part_001, lines 117-165). -/
def handleToolCallMessageEvent (chunks : List ToolCallChunk) (s : ExecutionState) :
    ExecutionState × List TraceEntry :=
  foldSteps processToolCallChunk chunks s

/-- Buffer one chunk of an approval_request_message event without reporting
(src/unnamed/part_001, lines 449-462). -/
def bufferToolCallChunk (tc : ToolCallChunk) (s : ExecutionState) :
    ExecutionState × List TraceEntry :=
  match optTruthy tc.tool_call_id with
  | none => (s, [])
  | some id =>
      let prev := (mapLookup s.pendingToolCalls id).getD ⟨"", ""⟩
      ({ s with pendingToolCalls :=
          mapSet s.pendingToolCalls id ⟨jsOr tc.name prev.name, prev.args ++ jsOr tc.arguments ""⟩ }, [])

/-- Handle an approval request message event (src/unnamed/part_001, lines
439-463). -/
def handleApprovalRequestEvent (chunks : List ToolCallChunk) (s : ExecutionState) :
    ExecutionState × List TraceEntry :=
  foldSteps bufferToolCallChunk chunks s

/-- Handle an auto_approval event (src/unnamed/part_001, lines 468-489). The
destructuring default applies only when the arguments field is absent. -/
def handleAutoApprovalEvent (tc : Option ToolCallChunk) (s : ExecutionState) :
    ExecutionState × List TraceEntry :=
  match tc with
  | none => (s, [])
  | some tc =>
      let tool_args := tc.arguments.getD "\x7b\x7d"
      match optTruthy tc.tool_call_id, optTruthy tc.name with
      | some id, some name =>
          let r := recordToolCall id name tool_args s.displayedToolCalls
          ({ s with displayedToolCalls := r.1 }, r.2)
      | _, _ => (s, [])

/-- Handle an init event (src/unnamed/part_001, lines 400-434): capture the
discovered identity and surface it; idempotent. -/
def handleInitEvent (agent_id conversation_id : Option String) (s : ExecutionState) :
    ExecutionState × List TraceEntry :=
  let a := optTruthy agent_id
  let c := optTruthy conversation_id
  let s1 := { s with
    agentId := match a with | some v => some v | none => s.agentId
    conversationId := match c with | some v => some v | none => s.conversationId }
  if a.isSome || c.isSome then (s1, [TraceEntry.idsReported a c]) else (s1, [])

/-- Flush one buffered entry at a non-error terminal result
(src/unnamed/part_001, lines 515-526). -/
def flushPendingEntry (e : String × PendingCall) (s : ExecutionState) :
    ExecutionState × List TraceEntry :=
  if e.2.name != "" && !(s.displayedToolCalls.contains e.1) then
    let r := recordToolCall e.1 e.2.name (if e.2.args = "" then "\x7b\x7d" else e.2.args)
      s.displayedToolCalls
    ({ s with displayedToolCalls := r.1 }, r.2)
  else (s, [])

/-- Handle a terminal result event (src/unnamed/part_001, lines 494-534):
capture result text and stats; on error capture the error text, otherwise
flush buffered-but-unreported calls; then write final stats. -/
def handleResultEvent (result : Option String) (is_error : Bool)
    (duration_ms total_tokens : Option Nat) (s : ExecutionState) :
    ExecutionState × List TraceEntry :=
  let stats : ResultStats := ⟨duration_ms.getD 0, total_tokens.getD 0⟩
  let s1 := { s with finalResult := some (jsOr result ""), resultStats := some stats }
  if is_error then
    ({ s1 with finalError := some (jsOr result "Unknown error") },
      [TraceEntry.statsUpdated stats.durationMs stats.totalTokens])
  else
    let p := foldSteps flushPendingEntry s1.pendingToolCalls s1
    (p.1, p.2 ++ [TraceEntry.statsUpdated stats.durationMs stats.totalTokens])

/-- Unwrap the optional stream_event envelope, once (src/unnamed/part_001,
lines 549-552). -/
def unwrapStreamEvent : StreamEvent → StreamEvent
  | StreamEvent.wrapped (some inner) => inner
  | e => e

/-- Dispatch one unwrapped event (the switch of src/unnamed/part_001, lines
554-582). Unrecognized kinds, including a second-level wrapper, are ignored. -/
def dispatchStreamEvent (e : StreamEvent) (s : ExecutionState) :
    ExecutionState × List TraceEntry :=
  match e with
  | StreamEvent.init a c => handleInitEvent a c s
  | StreamEvent.system subtype a c =>
      if subtype = some "init" then handleInitEvent a c s else (s, [])
  | StreamEvent.message mt tcs tc =>
      if mt = some "approval_request_message" then
        handleApprovalRequestEvent (toolCallList tcs tc) s
      else if mt = some "tool_call_message" then
        handleToolCallMessageEvent (toolCallList tcs tc) s
      else (s, [])
  | StreamEvent.auto_approval tc => handleAutoApprovalEvent tc s
  | StreamEvent.result r ie d t => handleResultEvent r ie d t s
  | StreamEvent.error e m =>
      ({ s with finalError := some (jsOr e (jsOr m "Unknown error")) }, [])
  | StreamEvent.wrapped _ => (s, [])
  | StreamEvent.other => (s, [])

/-- Process a single line from the subagent stream (src/unnamed/part_001,
lines 539-586). `parse` stands for JSON.parse plus shape reading; a parse
failure is swallowed by the catch and the line is ignored. -/
def processStreamEvent (parse : String → Except String StreamEvent)
    (line : String) (s : ExecutionState) : ExecutionState × List TraceEntry :=
  match parse line with
  | Except.error _ => (s, [])
  | Except.ok e => dispatchStreamEvent (unwrapStreamEvent e) s

/-- Process the ordered lines of one attempt. -/
def processLines (parse : String → Except String StreamEvent)
    (lines : List String) (s : ExecutionState) : ExecutionState × List TraceEntry :=
  foldSteps (processStreamEvent parse) lines s

/-- Subagent execution result (src/unnamed/part_001, lines 51-58). -/
structure SubagentResult where
  agentId : String
  conversationId : Option String
  report : String
  success : Bool
  error : Option String
  totalTokens : Option Nat
  deriving Repr, DecidableEq

/-- The last line of the captured stdout, which is the attempt lines each
followed by a newline, trimmed and re-split as in src/unnamed/part_001,
lines 595-596. -/
def lastStdoutLine (stdoutLines : List String) : String :=
  let stdout := String.join (stdoutLines.map (fun l => l ++ "\n"))
  let lines := splitOnNewline (trimString stdout).toList
  String.mk (lines.getLastD [])

/-- Parse the final result from stdout when no terminal event was captured
during streaming (src/unnamed/part_001, lines 591-624). -/
def parseResultFromStdout (parse : String → Except String StreamEvent)
    (stdoutLines : List String) (agentId : Option String) : SubagentResult :=
  match parse (lastStdoutLine stdoutLines) with
  | Except.ok (StreamEvent.result r ie _ _) =>
      { agentId := agentId.getD "", conversationId := none,
        report := jsOr r "", success := !ie,
        error := if ie then some (jsOr r "Unknown error") else none,
        totalTokens := none }
  | Except.ok _ =>
      { agentId := agentId.getD "", conversationId := none, report := "",
        success := false, error := some "Unexpected output format from subagent",
        totalTokens := none }
  | Except.error msg =>
      { agentId := agentId.getD "", conversationId := none, report := "",
        success := false,
        error := some ("Failed to parse subagent output: " ++ msg),
        totalTokens := none }

/-! ## Configuration and environment -/

/-- Modelled from the spec: SubagentConfig is declared in the subagents index
module, which is not among the provided sources. The spec lists its fields;
only the model-selection fields influence the orchestration decisions modelled
here, the tool, memory and skill policy fields feed only the child argument
vector, which is abstracted by AttemptEnv. -/
structure SubagentConfig where
  recommendedModel : String
  modelSelector : Option (List String)
  deriving Repr, DecidableEq

/-- Response from the server model selector resolver (src/unnamed/part_001,
lines 43-46). -/
structure ModelSelectorResponse where
  resolved_handle : String
  expansion_chain : List String
  deriving Repr, DecidableEq

/-- Environment of one executeSubagent call: the signal state it observes and
the behaviour of the child process it would spawn. `settingsError` is the
message of an exception raised inside the try block before the spawn (for
example by the settings fetch), caught by the outer catch. -/
structure AttemptEnv where
  abortedAtStart : Bool
  settingsError : Option String
  lines : List String
  stderr : String
  exitCode : Option Int
  wasAborted : Bool
  deriving Repr

/-- World of oracles for the collaborators of one spawnSubagent invocation:
the parsed stream protocol, the loaded configurations, the parent agent
lookup, the server resolver with its local fallbacks, and the per-attempt
child behaviour. `attempts`, `jitter`, `waitAborts` and `sigAborted` are
streams indexed by attempt or wait number. -/
structure World where
  parse : String → Except String StreamEvent
  configs : String → Option SubagentConfig
  parentModelHandle : Option String
  serverResolve : List String → Option String → Option ModelSelectorResponse
  resolveModelStatic : String → Option String
  resolveModelDynamic : String → Option String
  defaultModel : String
  existingAgentModel : Option (Option String)
  attempts : Nat → AttemptEnv
  jitter : Nat → Nat
  waitAborts : Nat → Bool
  sigAborted : Nat → Bool

/-- Record of one actual child spawn: the arguments that drive retry and
identity behaviour. -/
structure SpawnRec where
  model : Option String
  chain : List String
  chainIndex : Nat
  existingAgentId : Option String
  existingConversationId : Option String
  deriving Repr, DecidableEq

/-! ## Model selector resolution (src/unnamed/part_001, lines 1028-1113) -/

/-- Check if a selector entry is a concrete model identifier. -/
def isConcreteModelSelector (entry : String) : Bool :=
  !(startsWithStr entry "group:") && entry != "inherit" && entry != "any"

/-- The for-loop of getFallbackModelFromSelector: first concrete entry that
yields a handle, where a handle-shaped entry is used directly and a bare id is
resolved statically then dynamically; entries that resolve to nothing are
skipped; exhaustion falls through to the default model. -/
def fallbackFromList (w : World) : List String → String
  | [] => w.defaultModel
  | entry :: rest =>
      if !(isConcreteModelSelector entry) then fallbackFromList w rest
      else if includesSubstr entry "/" then entry
      else
        match (w.resolveModelStatic entry).bind strTruthy with
        | some h => h
        | none =>
            match (w.resolveModelDynamic entry).bind strTruthy with
            | some h => h
            | none => fallbackFromList w rest

/-- Pick a fallback model when server resolution fails (src/unnamed/part_001,
lines 1035-1071). -/
def getFallbackModelFromSelector (w : World) (selector : List String)
    (parentModelHandle : Option String) : String :=
  match optTruthy parentModelHandle with
  | some p => p
  | none => fallbackFromList w selector

/-- Resolve a model selector via the server resolver, falling back locally on
failure to a single-element chain (src/unnamed/part_001, lines 1081-1113). -/
def resolveModelSelectorWithChain (w : World) (selector : List String)
    (parentModelHandle : Option String) : ModelSelectorResponse :=
  match w.serverResolve selector parentModelHandle with
  | some response => response
  | none =>
      let fallbackModel := getFallbackModelFromSelector w selector parentModelHandle
      ⟨fallbackModel, [fallbackModel]⟩

/-! ## executeSubagent (src/unnamed/part_001, lines 746-993)

Fuel bounds the recursion depth of the model-fallback restarts; one unit is
consumed per call. aidx indexes the attempt-environment stream; the returned
Nat is the next unused index. The returned list records the actual child
spawns in order. Arguments that only shape the child argument vector or the
prompt are absorbed by the attempt environment. -/

/-- Initial execution state of one attempt (src/unnamed/part_001, lines
846-854). -/
def initialExecutionState (existingAgentId existingConversationId : Option String) :
    ExecutionState :=
  { agentId := optTruthy existingAgentId
    conversationId := optTruthy existingConversationId
    finalResult := none
    finalError := none
    resultStats := none
    displayedToolCalls := []
    pendingToolCalls := [] }

/-- Execution state after processing the lines of one attempt. -/
def attemptState (w : World) (env : AttemptEnv)
    (existingAgentId existingConversationId : Option String) : ExecutionState :=
  (processLines w.parse env.lines
    (initialExecutionState existingAgentId existingConversationId)).1

/-- Terminal failure result of a nonzero-exit attempt (src/unnamed/part_001,
lines 946-955): the propagated stream error, else stderr, else the exit-code
message. -/
def nonzeroExitResult (st : ExecutionState) (env : AttemptEnv) : SubagentResult :=
  let stderr := trimString env.stderr
  let propagatedError := st.finalError.map trimString
  let exitStr := match env.exitCode with
    | some n => toString n
    | none => "null"
  let fallbackError :=
    if stderr = "" then "Subagent exited with code " ++ exitStr else stderr
  { agentId := st.agentId.getD "", conversationId := optTruthy st.conversationId,
    report := "", success := false,
    error := some (jsOr propagatedError fallbackError), totalTokens := none }

/-- Terminal result of a zero-exit attempt (src/unnamed/part_001, lines
959-984): the captured result, else the captured error, else the best-effort
parse of the last stdout line. -/
def zeroExitResult (w : World) (st : ExecutionState) (env : AttemptEnv) : SubagentResult :=
  match st.finalResult with
  | some finalResult =>
      let et := optTruthy st.finalError
      { agentId := st.agentId.getD "", conversationId := optTruthy st.conversationId,
        report := finalResult, success := et.isNone, error := et,
        totalTokens := st.resultStats.map (·.totalTokens) }
  | none =>
      match optTruthy st.finalError with
      | some finalError =>
          { agentId := st.agentId.getD "", conversationId := optTruthy st.conversationId,
            report := "", success := false, error := some finalError,
            totalTokens := st.resultStats.map (·.totalTokens) }
      | none => parseResultFromStdout w.parse env.lines st.agentId

/-- Interrupted result of an attempt whose child was killed by the abort
handler (src/unnamed/part_001, lines 881-889). -/
def abortedRunResult (st : ExecutionState) : SubagentResult :=
  { agentId := st.agentId.getD "", conversationId := optTruthy st.conversationId,
    report := "", success := false, error := some INTERRUPTED_BY_USER,
    totalTokens := none }

/-- Execute one subagent attempt, with model-error fallback along the
expansion chain (next entry on the first chain position, then the parent
model with an empty chain). -/
def executeSubagent (w : World) : Nat → Nat → Option String → List String → Nat →
    Option String → Option String → Option (SubagentResult × Nat × List SpawnRec)
  | 0, _, _, _, _, _, _ => none
  | fuel + 1, aidx, model, expansionChain, chainIndex, existingAgentId, existingConversationId =>
      let env := w.attempts aidx
      if env.abortedAtStart then
        some ({ agentId := "", conversationId := none, report := "",
                success := false, error := some INTERRUPTED_BY_USER,
                totalTokens := none }, aidx + 1, [])
      else
        match env.settingsError with
        | some msg =>
            some ({ agentId := "", conversationId := none, report := "",
                    success := false, error := some msg, totalTokens := none },
              aidx + 1, [])
        | none =>
            let rec0 : SpawnRec :=
              ⟨model, expansionChain, chainIndex, existingAgentId, existingConversationId⟩
            let st := attemptState w env existingAgentId existingConversationId
            if env.wasAborted then
              some (abortedRunResult st, aidx + 1, [rec0])
            else
              let stderr := trimString env.stderr
              if env.exitCode != some 0 then
                let isRecoverableError :=
                  isProviderNotSupportedError stderr || isUnknownModelError stderr
                if chainIndex == 0 && isRecoverableError then
                  match (expansionChain.get? 1).bind strTruthy with
                  | some nextModel =>
                      match executeSubagent w fuel (aidx + 1) (some nextModel)
                          expansionChain 1 existingAgentId existingConversationId with
                      | some (r, aidx2, tr) => some (r, aidx2, rec0 :: tr)
                      | none => none
                  | none =>
                      match optTruthy w.parentModelHandle with
                      | some primaryModelHandle =>
                          if some primaryModelHandle != model then
                            match executeSubagent w fuel (aidx + 1)
                                (some primaryModelHandle) [] 0 none none with
                            | some (r, aidx2, tr) => some (r, aidx2, rec0 :: tr)
                            | none => none
                          else some (nonzeroExitResult st env, aidx + 1, [rec0])
                      | none => some (nonzeroExitResult st env, aidx + 1, [rec0])
                else some (nonzeroExitResult st env, aidx + 1, [rec0])
              else
                some (zeroExitResult w st env, aidx + 1, [rec0])

/-! ## spawnSubagent (src/unnamed/part_001, lines 1166-1374) -/

/-- Terminal return after the retry loop exits (src/unnamed/part_001, lines
1365-1373). -/
def spawnSubagentExhausted (lastResult : Option SubagentResult)
    (retryAgentId retryConversationId : Option String) : SubagentResult :=
  match lastResult with
  | some r => r
  | none =>
      { agentId := jsOr retryAgentId "", conversationId := optTruthy retryConversationId,
        report := "", success := false, error := some "Subagent execution failed",
        totalTokens := none }

/-- The transient retry loop of spawnSubagent (src/unnamed/part_001, lines
1289-1363). `remaining` counts the loop iterations still permitted, starting
at MAX_TRANSIENT_RETRIES + 1 with attempt = 0; the break on
attempt >= MAX_TRANSIENT_RETRIES keeps attempt at most 2. -/
def spawnSubagentLoop (w : World) (efuel : Nat) :
    Nat → Nat → Nat → Option String → List String → Option String → Option String →
    Option SubagentResult → List SpawnRec → Option (SubagentResult × List SpawnRec)
  | 0, _, _, _, _, retryAgentId, retryConversationId, lastResult, acc =>
      some (spawnSubagentExhausted lastResult retryAgentId retryConversationId, acc)
  | remaining + 1, attempt, aidx, model, expansionChain, retryAgentId,
      retryConversationId, _lastResult, acc =>
      match executeSubagent w efuel aidx model expansionChain 0
          retryAgentId retryConversationId with
      | none => none
      | some (result, aidx2, tr) =>
          let acc := acc ++ tr
          if result.success then some (result, acc)
          else if result.error == some INTERRUPTED_BY_USER || w.sigAborted attempt then
            some (result, acc)
          else if !(isRetryableSubagentError result.error) ||
              attempt ≥ MAX_TRANSIENT_RETRIES then
            some (spawnSubagentExhausted (some result) retryAgentId retryConversationId, acc)
          else
            let retryAgentId2 :=
              if result.agentId != "" then some result.agentId else retryAgentId
            let retryConversationId2 :=
              match optTruthy result.conversationId with
              | some c => some c
              | none => retryConversationId
            let delayMs := computeRetryDelayMs (attempt + 1) (w.jitter attempt)
            if !(waitForRetryDelay delayMs (w.waitAborts attempt)) then
              some ({ agentId := jsOr retryAgentId2 "",
                      conversationId := optTruthy retryConversationId2,
                      report := "", success := false,
                      error := some INTERRUPTED_BY_USER, totalTokens := none }, acc)
            else
              spawnSubagentLoop w efuel remaining (attempt + 1) aidx2 model
                expansionChain retryAgentId2 retryConversationId2 (some result) acc

/-- Spawn a subagent and drive it through model resolution and the retry loop
(src/unnamed/part_001, lines 1166-1374). The prompt construction affects only
child behaviour, which the attempt environments absorb. -/
def spawnSubagent (w : World) (efuel : Nat) (type : String)
    (userModel : Option String) (existingAgentId existingConversationId : Option String) :
    Option (SubagentResult × List SpawnRec) :=
  match w.configs type with
  | none =>
      some ({ agentId := "", conversationId := none, report := "",
              success := false, error := some ("Unknown subagent type: " ++ type),
              totalTokens := none }, [])
  | some config =>
      let isDeployingExisting :=
        (optTruthy existingAgentId).isSome || (optTruthy existingConversationId).isSome
      let resolution : Option String × List String :=
        if !isDeployingExisting then
          match optTruthy userModel with
          | some u =>
              if startsWithStr u "group:" || u = "inherit" || u = "any" then
                let r := resolveModelSelectorWithChain w [u, "any"] w.parentModelHandle
                (some r.resolved_handle, r.expansion_chain)
              else
                match (w.resolveModelDynamic u).bind strTruthy with
                | some resolved => (some resolved, [resolved])
                | none =>
                    if includesSubstr u "/" then (some u, [u])
                    else
                      let selector := config.modelSelector.getD [config.recommendedModel]
                      let r := resolveModelSelectorWithChain w selector
                        (optTruthy w.parentModelHandle)
                      (some r.resolved_handle, r.expansion_chain)
          | none =>
              let selector := config.modelSelector.getD [config.recommendedModel]
              let r := resolveModelSelectorWithChain w selector
                (optTruthy w.parentModelHandle)
              (some r.resolved_handle, r.expansion_chain)
        else if (optTruthy existingAgentId).isSome then
          ((match w.existingAgentModel with
            | some m => m
            | none => none), [])
        else (none, [])
      spawnSubagentLoop w efuel (MAX_TRANSIENT_RETRIES + 1) 0 0
        resolution.1 resolution.2 existingAgentId existingConversationId none []


/-! ## Spec renderings used for refinement comparison

These definitions follow the words of the specification, not the source; they
exist to be compared with the source-derived functions above. -/

/-- Derivation of a handle from one concrete selector token, in the modes the
engine uses: a token containing the provider separator is used as-is, a bare
id is resolved statically then dynamically. -/
def deriveConcreteToken (w : World) (entry : String) : Option String :=
  if includesSubstr entry "/" then some entry
  else
    match (w.resolveModelStatic entry).bind strTruthy with
    | some h => some h
    | none => (w.resolveModelDynamic entry).bind strTruthy

/-- Rendering of the claimed fallback rule: the parent handle when present,
else a handle derived from the FIRST concrete token of the list, else the
process-wide default model. -/
def fallbackClaimed (w : World) (selector : List String)
    (parentModelHandle : Option String) : String :=
  match optTruthy parentModelHandle with
  | some p => p
  | none =>
      match selector.find? isConcreteModelSelector with
      | some t => (deriveConcreteToken w t).getD w.defaultModel
      | none => w.defaultModel

/-- Rendering of the amended fallback rule: the parent handle when present,
else the first concrete token of the list that yields a handle, skipping
concrete tokens that resolve to nothing, else the default model. -/
def fallbackAmended (w : World) (selector : List String)
    (parentModelHandle : Option String) : String :=
  match optTruthy parentModelHandle with
  | some p => p
  | none =>
      ((selector.filterMap (fun e =>
          if isConcreteModelSelector e then deriveConcreteToken w e else none)).head?).getD
        w.defaultModel

/-! ## Report counting -/

/-- Whether a trace entry is the tool-call progress report for the given id. -/
def isReportOf (id : String) : TraceEntry → Bool
  | TraceEntry.toolCallReported i _ _ => i == id
  | _ => false

/-- Number of tool-call progress reports for one id in a trace. -/
def reportCount (id : String) (tr : List TraceEntry) : Nat :=
  tr.countP (isReportOf id)

/-- Dedup discipline of one processing step: reported ids are fresh, reported
at most once, and enter the reported set; the reported set only grows. -/
def StepOK (s t : ExecutionState) (tr : List TraceEntry) : Prop :=
  ∀ id, (id ∈ s.displayedToolCalls → id ∈ t.displayedToolCalls) ∧
    (id ∈ s.displayedToolCalls → reportCount id tr = 0) ∧
    reportCount id tr ≤ 1 ∧
    (1 ≤ reportCount id tr → id ∈ t.displayedToolCalls)

/-! ## Test fixtures

Concrete protocol and worlds used to instantiate the theorems below; they are
inputs to the embedded engine, not part of the embedding. -/

/-- A concrete parse oracle: a handful of recognized lines, everything else a
parse failure. -/
def demoParse : String → Except String StreamEvent := fun line =>
  if line = "INIT" then Except.ok (StreamEvent.init (some "A") (some "C"))
  else if line = "APPROVAL_X" then
    Except.ok (StreamEvent.message (some "approval_request_message") none
      (some ⟨some "x", some "toolA", some "\x7b\x7d"⟩))
  else if line = "AUTO_X" then
    Except.ok (StreamEvent.auto_approval (some ⟨some "x", some "toolA", none⟩))
  else if line = "RESULT_OK" then
    Except.ok (StreamEvent.result (some "done") false (some 120) (some 42))
  else if line = "FRAG1" then
    Except.ok (StreamEvent.message (some "tool_call_message") none
      (some ⟨some "x", some "toolA", some "\x7b\"a\":1"⟩))
  else if line = "FRAG2" then
    Except.ok (StreamEvent.message (some "tool_call_message") none
      (some ⟨some "x", none, some ",\"b\":2\x7d"⟩))
  else Except.error "Unexpected token"

/-- A successful attempt environment: the child exits 0 after one terminal
result event. -/
def baseEnv : AttemptEnv :=
  { abortedAtStart := false, settingsError := none, lines := ["RESULT_OK"],
    stderr := "", exitCode := some 0, wasAborted := false }

/-- Baseline world: no configurations, no parent model, failing server
resolver, succeeding attempts. -/
def baseWorld : World :=
  { parse := demoParse
    configs := fun _ => none
    parentModelHandle := none
    serverResolve := fun _ _ => none
    resolveModelStatic := fun _ => none
    resolveModelDynamic := fun _ => none
    defaultModel := "prov/default"
    existingAgentModel := none
    attempts := fun _ => baseEnv
    jitter := fun _ => 0
    waitAborts := fun _ => false
    sigAborted := fun _ => false }

/-- World of the rate-limit scenario: the worker type resolves to the
two-entry chain prov/m1, prov/m2; the first attempt exits 1 with a rate-limit
message on stderr after announcing identity A/C; the second attempt
succeeds. -/
def c2World : World :=
  { baseWorld with
    configs := fun t => if t = "worker" then some ⟨"rec", some ["sel"]⟩ else none
    serverResolve := fun sel _ =>
      if sel = ["sel"] then some ⟨"prov/m1", ["prov/m1", "prov/m2"]⟩ else none
    attempts := fun i =>
      if i = 0 then
        { baseEnv with lines := ["INIT"], stderr := "rate limit", exitCode := some 1 }
      else baseEnv }

/-- Variant of the rate-limit scenario in which the first two attempts are
rate limited and the third succeeds. -/
def c2WorldB : World :=
  { c2World with
    attempts := fun i =>
      if i ≤ 1 then
        { baseEnv with lines := ["INIT"], stderr := "rate limit", exitCode := some 1 }
      else baseEnv }

/-- World of the model-fallback scenario: the worker type resolves to the
single-entry chain prov/m1, the first attempt dies with an unknown-model
error, and the parent agent runs prov/parent. -/
def c3World : World :=
  { baseWorld with
    configs := fun t => if t = "worker" then some ⟨"rec", some ["sel"]⟩ else none
    parentModelHandle := some "prov/parent"
    serverResolve := fun sel _ =>
      if sel = ["sel"] then some ⟨"prov/m1", ["prov/m1"]⟩ else none
    attempts := fun i =>
      if i = 0 then
        { baseEnv with stderr := "Error: Unknown model prov/m1", exitCode := some 1 }
      else baseEnv }

/-- Variant of the model-fallback scenario with a two-entry chain in which
the first outer attempt is rate limited (discovering identity A/C) and the
second outer attempt dies with an unknown-model error, so chain advancement
happens on an outer attempt after the first, with the resumed identity. -/
def c3WorldB : World :=
  { baseWorld with
    configs := fun t => if t = "worker" then some ⟨"rec", some ["sel"]⟩ else none
    serverResolve := fun sel _ =>
      if sel = ["sel"] then some ⟨"prov/m1", ["prov/m1", "prov/m2"]⟩ else none
    attempts := fun i =>
      if i = 0 then
        { baseEnv with lines := ["INIT"], stderr := "rate limit", exitCode := some 1 }
      else if i = 1 then
        { baseEnv with stderr := "Error: Unknown model prov/m1", exitCode := some 1 }
      else baseEnv }

/-- World of the cancellation scenario: like the rate-limit scenario, but the
abort signal fires during every backoff wait. -/
def c9World : World :=
  { c2World with waitAborts := fun _ => true }



/-! ## Claim theorems -/

/-- C10: for every attempt number n and every jitter outcome, the computed
retry backoff delay is an integer between 0 and RETRY_MAX_DELAY_MS = 8000 ms
inclusive; the cap is enforced again after adding jitter. -/
theorem c10_retry_delay_bounded (attempt jitter : Nat) :
    0 ≤ computeRetryDelayMs attempt jitter ∧
    computeRetryDelayMs attempt jitter ≤ RETRY_MAX_DELAY_MS ∧
    RETRY_MAX_DELAY_MS = 8000 :=
  ⟨Nat.zero_le _, Nat.min_le_left _ _, rfl⟩

/-- C5: processing an output line that does not parse as a JSON event leaves
the ExecutionState of the attempt completely unchanged, emits no effect, and
raises no error: the parse failure is swallowed and the processor is total. -/
theorem c5_malformed_line_noop (parse : String → Except String StreamEvent)
    (line : String) (s : ExecutionState) (msg : String)
    (h : parse line = Except.error msg) :
    processStreamEvent parse line s = (s, []) := by
  simp [processStreamEvent, h]

/-- Witness for C5 at a concrete malformed line. -/
theorem c5_malformed_line_noop_witness :
    demoParse "not json" = Except.error "Unexpected token" ∧
    processStreamEvent demoParse "not json" (initialExecutionState none none) =
      (initialExecutionState none none, []) :=
  ⟨rfl, c5_malformed_line_noop demoParse "not json" _ "Unexpected token" rfl⟩

/-- C7: a type absent from the loaded subagent configurations yields the
failure result with error "Unknown subagent type: <type>", empty agentId and
report, and no child spawn at all. -/
theorem c7_unknown_type_no_spawn (w : World) (efuel : Nat) (type : String)
    (userModel existingAgentId existingConversationId : Option String)
    (h : w.configs type = none) :
    spawnSubagent w efuel type userModel existingAgentId existingConversationId =
      some ({ agentId := "", conversationId := none, report := "",
              success := false, error := some ("Unknown subagent type: " ++ type),
              totalTokens := none }, []) := by
  simp [spawnSubagent, h]

/-- Witness for C7 at the unknown type ghost. -/
theorem c7_unknown_type_no_spawn_witness :
    baseWorld.configs "ghost" = none ∧
    spawnSubagent baseWorld 2 "ghost" none none none =
      some ({ agentId := "", conversationId := none, report := "",
              success := false, error := some "Unknown subagent type: ghost",
              totalTokens := none }, []) :=
  ⟨rfl, c7_unknown_type_no_spawn baseWorld 2 "ghost" none none none rfl⟩


/-- Helper: looking up a key immediately after setting it. -/
theorem mapLookup_mapSet_self (m : List (String × PendingCall)) (k : String) (v : PendingCall) :
    mapLookup (mapSet m k v) k = some v := by
  induction m with
  | nil => simp [mapLookup, mapSet, List.find?]
  | cons p m ih =>
      cases hp : (p.1 == k) with
      | true =>
          have hpk : p.1 = k := by simpa using hp
          simp [mapLookup, mapSet, List.find?, hp, hpk]
      | false =>
          cases h2 : List.find? (fun q => q.1 == k) m with
          | some q =>
              have hsome : (List.find? (fun q => q.1 == k) m).isSome = true := by
                simp [h2]
              simp only [mapSet, List.find?, hp, h2, Option.isSome_some, if_true] at ih ⊢
              simpa [mapLookup, List.find?, hp] using ih
          | none =>
              have hnone : (List.find? (fun q => q.1 == k) m).isSome = false := by
                simp [h2]
              simp only [mapSet, List.find?, hp, h2, Option.isSome_none,
                Bool.false_eq_true, if_false] at ih ⊢
              simpa [mapLookup, List.find?, hp] using ih

/-- Helper: JS or with empty default is the identity on present strings. -/
theorem jsOr_some_empty (x : String) : jsOr (some x) "" = x := by
  by_cases h : x = "" <;> simp [jsOr, optTruthy, strTruthy, h]

/-- Helper: JS or on an absent value yields the default. -/
theorem jsOr_none (d : String) : jsOr none d = d := rfl

/-- Helper: the pending map written by one tool-call chunk. -/
theorem processToolCallChunk_pending (tc : ToolCallChunk) (s : ExecutionState)
    (id : String) (hid : optTruthy tc.tool_call_id = some id) :
    (processToolCallChunk tc s).1.pendingToolCalls =
      mapSet s.pendingToolCalls id
        ⟨jsOr tc.name ((mapLookup s.pendingToolCalls id).getD ⟨"", ""⟩).name,
         ((mapLookup s.pendingToolCalls id).getD ⟨"", ""⟩).args ++ jsOr tc.arguments ""⟩ := by
  simp only [processToolCallChunk, hid]
  split
  · rfl
  · split
    · rfl
    · rfl

/-- Helper: the pending map written by one tool_call_message line. -/
theorem processStreamEvent_toolcall_pending (parse : String → Except String StreamEvent)
    (l : String) (tc : ToolCallChunk) (s : ExecutionState) (id : String)
    (h : parse l = Except.ok (StreamEvent.message (some "tool_call_message") none (some tc)))
    (hid : optTruthy tc.tool_call_id = some id) :
    (processStreamEvent parse l s).1.pendingToolCalls =
      mapSet s.pendingToolCalls id
        ⟨jsOr tc.name ((mapLookup s.pendingToolCalls id).getD ⟨"", ""⟩).name,
         ((mapLookup s.pendingToolCalls id).getD ⟨"", ""⟩).args ++ jsOr tc.arguments ""⟩ := by
  simp only [processStreamEvent, h, unwrapStreamEvent, dispatchStreamEvent,
    handleToolCallMessageEvent, toolCallList, foldSteps]
  simpa using processToolCallChunk_pending tc s id hid

/-- C6: streamed argument fragments for one tool-call-id delivered across
multiple events are concatenated in arrival order in the recorded argument
string of the ExecutionState. -/
theorem c6_fragments_concatenate (parse : String → Except String StreamEvent)
    (l1 l2 id : String) (n1 : Option String) (f1 f2 : String) (s : ExecutionState)
    (h1 : parse l1 = Except.ok (StreamEvent.message (some "tool_call_message") none
        (some ⟨some id, n1, some f1⟩)))
    (h2 : parse l2 = Except.ok (StreamEvent.message (some "tool_call_message") none
        (some ⟨some id, none, some f2⟩)))
    (hid : id ≠ "")
    (h0 : mapLookup s.pendingToolCalls id = none) :
    mapLookup ((processLines parse [l1, l2] s).1).pendingToolCalls id =
      some ⟨jsOr n1 "", f1 ++ f2⟩ := by
  have hido : optTruthy (some id) = some id := by simp [optTruthy, strTruthy, hid]
  have e1 := processStreamEvent_toolcall_pending parse l1 ⟨some id, n1, some f1⟩ s id h1 hido
  rw [h0] at e1
  have e2 := processStreamEvent_toolcall_pending parse l2 ⟨some id, none, some f2⟩
    (processStreamEvent parse l1 s).1 id h2 hido
  rw [e1, mapLookup_mapSet_self] at e2
  have : ((processLines parse [l1, l2] s).1).pendingToolCalls =
      ((processStreamEvent parse l2 (processStreamEvent parse l1 s).1).1).pendingToolCalls := by
    simp [processLines, foldSteps]
  rw [this, e2]
  simp [jsOr_some_empty, jsOr_none]
  rw [mapLookup_mapSet_self]

/-- Witness for C6: the fragments of the spec example concatenate to the full
argument object. -/
theorem c6_fragments_concatenate_witness :
    ("x" : String) ≠ "" ∧
    mapLookup ((processLines demoParse ["FRAG1", "FRAG2"]
        (initialExecutionState none none)).1).pendingToolCalls "x" =
      some ⟨"toolA", "\x7b\"a\":1,\"b\":2\x7d"⟩ :=
  ⟨by decide,
    c6_fragments_concatenate demoParse "FRAG1" "FRAG2" "x" (some "toolA")
      "\x7b\"a\":1" ",\"b\":2\x7d" (initialExecutionState none none)
      rfl rfl (by decide) rfl⟩


/-- Helper: the code fallback scan equals the first-yielding-token
formulation. -/
theorem fallbackFromList_eq_amended (w : World) (l : List String) :
    fallbackFromList w l =
      ((l.filterMap (fun e =>
          if isConcreteModelSelector e then deriveConcreteToken w e else none)).head?).getD
        w.defaultModel := by
  induction l with
  | nil => rfl
  | cons e rest ih =>
      by_cases hc : isConcreteModelSelector e
      · by_cases hs : includesSubstr e "/"
        · simp [fallbackFromList, deriveConcreteToken, hc, hs]
        · cases hst : (w.resolveModelStatic e).bind strTruthy with
          | some h => simp [fallbackFromList, deriveConcreteToken, hc, hs, hst]
          | none =>
              cases hdy : (w.resolveModelDynamic e).bind strTruthy with
              | some h => simp [fallbackFromList, deriveConcreteToken, hc, hs, hst, hdy]
              | none => simp [fallbackFromList, deriveConcreteToken, hc, hs, hst, hdy, ih]
      · simp [fallbackFromList, deriveConcreteToken, hc, ih]

/-- C8 (counterexample): with the selector list [abc, prov/m], no parent
handle and both local resolvers failing on the bare id abc, the code falls
through to the SECOND concrete token and returns prov/m; the rule as claimed,
which derives a handle only from the first concrete token and otherwise uses
the process-wide default, yields prov/default. -/
theorem c8_counterexample :
    getFallbackModelFromSelector baseWorld ["abc", "prov/m"] none = "prov/m" ∧
    fallbackClaimed baseWorld ["abc", "prov/m"] none = "prov/default" ∧
    ("prov/m" : String) ≠ "prov/default" := by
  refine ⟨?_, ?_, ?_⟩ <;> decide

/-- C8 (amended): model-selector resolution never throws and, when the
external resolver call fails, returns the single-element chain of the
fallback handle, which is the parent handle when present, else the handle
yielded by the first concrete selector token that yields one (a token with a
provider separator used as-is, a bare id resolved statically then
dynamically, tokens yielding nothing skipped), else the process-wide default
model. -/
theorem c8_fallback_resolution_amended (w : World) (selector : List String)
    (parentModelHandle : Option String)
    (h : w.serverResolve selector parentModelHandle = none) :
    resolveModelSelectorWithChain w selector parentModelHandle =
      ⟨fallbackAmended w selector parentModelHandle,
       [fallbackAmended w selector parentModelHandle]⟩ := by
  have he : getFallbackModelFromSelector w selector parentModelHandle =
      fallbackAmended w selector parentModelHandle := by
    unfold getFallbackModelFromSelector fallbackAmended
    cases hpt : optTruthy parentModelHandle with
    | some p => rfl
    | none => exact fallbackFromList_eq_amended w selector
  simp [resolveModelSelectorWithChain, h, he]

/-- Witness for C8 (amended) at a concrete failing resolution. -/
theorem c8_fallback_resolution_amended_witness :
    baseWorld.serverResolve ["abc", "prov/m"] none = none ∧
    resolveModelSelectorWithChain baseWorld ["abc", "prov/m"] none =
      ⟨fallbackAmended baseWorld ["abc", "prov/m"] none,
       [fallbackAmended baseWorld ["abc", "prov/m"] none]⟩ :=
  ⟨rfl, c8_fallback_resolution_amended baseWorld ["abc", "prov/m"] none rfl⟩

/-- C2: evaluation at the failing input. With the two-entry expansion chain
prov/m1, prov/m2 resolved for the worker type and a first attempt that exits
nonzero with a rate-limit message, the engine spawns the retry at the SAME
model prov/m1 with the resumed identity A/C, not at chain[1] = prov/m2; and
when the first two attempts are rate limited a THIRD attempt is spawned,
still at prov/m1. -/
theorem c2_rate_limited_retry_at_failing_input :
    (spawnSubagent c2World 2 "worker" none none none).map
        (fun p => p.2.map (fun r => (r.model, r.existingAgentId, r.existingConversationId))) =
      some [(some "prov/m1", none, none),
            (some "prov/m1", some "A", some "C")] ∧
    isRateLimitError (trimString "rate limit") = true ∧
    (spawnSubagent c2WorldB 2 "worker" none none none).map
        (fun p => p.2.map (fun r => r.model)) =
      some [some "prov/m1", some "prov/m1", some "prov/m1"] ∧
    (some "prov/m1" : Option String) ≠ some "prov/m2" := by
  refine ⟨?_, ?_, ?_, ?_⟩ <;> decide

/-- C3 (counterexample): the claim fails at two concrete inputs. First, with
the single-entry chain prov/m1 and an unknown-model failure, the engine falls
back to the parent model prov/parent, but the recursive call receives the
EMPTY chain, length zero, not a chain of length one. Second, with the
two-entry chain prov/m1, prov/m2, a rate-limited first outer attempt that
discovers identity A/C and an unknown-model failure on the second outer
attempt, chain advancement to prov/m2 happens on an attempt AFTER the first,
and it restarts with the resumed identity A/C, not a fresh one. -/
theorem c3_counterexample :
    ((spawnSubagent c3World 2 "worker" none none none).map
        (fun p => p.2.map (fun r => (r.model, r.chain, r.existingAgentId))) =
      some [(some "prov/m1", ["prov/m1"], none),
            (some "prov/parent", [], none)] ∧
     isUnknownModelError (trimString "Error: Unknown model prov/m1") = true ∧
     ([] : List String).length ≠ 1) ∧
    ((spawnSubagent c3WorldB 2 "worker" none none none).map
        (fun p => p.2.map (fun r =>
          (r.model, r.chainIndex, r.existingAgentId, r.existingConversationId))) =
      some [(some "prov/m1", 0, none, none),
            (some "prov/m1", 0, some "A", some "C"),
            (some "prov/m2", 1, some "A", some "C")] ∧
     isRateLimitError (trimString "rate limit") = true ∧
     (some "A" : Option String) ≠ none) := by
  refine ⟨⟨?_, ?_, ?_⟩, ⟨?_, ?_, ?_⟩⟩ <;> decide


/-- C3 (amended): when an attempt at chain index 0 fails with a
provider_not_supported or unknown_model error, the engine advances to the
next expansion-chain entry (when present and nonempty), restarting with the
identity arguments of the failing attempt, which are fresh exactly when none
were supplied; when the chain has no further entry it falls back exactly
once to the parent model with a fresh identity and an EMPTY chain; the
recursive call runs at chain index 1, where no further advancement happens;
and each outer retry attempt re-invokes executeSubagent at chain index 0
with the same model and chain and the resumed identity (the loop-restart
equation below), so advancement can recur on outer attempts after the
first, as the closed three-spawn evaluation shows. -/
theorem c3_chain_advancement_amended (w : World) (efuel aidx : Nat)
    (model : Option String) (chain : List String) (eA eC : Option String)
    (h1 : (w.attempts aidx).abortedAtStart = false)
    (h2 : (w.attempts aidx).settingsError = none)
    (h3 : (w.attempts aidx).wasAborted = false)
    (h4 : ((w.attempts aidx).exitCode == some 0) = false)
    (h5 : (isProviderNotSupportedError (trimString (w.attempts aidx).stderr) ||
        isUnknownModelError (trimString (w.attempts aidx).stderr)) = true) :
    (∀ nextModel, (chain.get? 1).bind strTruthy = some nextModel →
      executeSubagent w (efuel + 2) aidx model chain 0 eA eC =
        (executeSubagent w (efuel + 1) (aidx + 1) (some nextModel) chain 1 eA eC).map
          (fun r => (r.1, r.2.1, (⟨model, chain, 0, eA, eC⟩ : SpawnRec) :: r.2.2))) ∧
    (∀ p, (chain.get? 1).bind strTruthy = none →
      optTruthy w.parentModelHandle = some p → (some p != model) = true →
      executeSubagent w (efuel + 2) aidx model chain 0 eA eC =
        (executeSubagent w (efuel + 1) (aidx + 1) (some p) [] 0 none none).map
          (fun r => (r.1, r.2.1, (⟨model, chain, 0, eA, eC⟩ : SpawnRec) :: r.2.2))) ∧
    (executeSubagent w (efuel + 1) aidx model chain 1 eA eC =
      some (nonzeroExitResult (attemptState w (w.attempts aidx) eA eC) (w.attempts aidx),
        aidx + 1, [⟨model, chain, 1, eA, eC⟩])) ∧
    (∀ (efuel2 remaining attempt2 aidx2 : Nat) (rA rC : Option String)
        (lastR : Option SubagentResult) (acc : List SpawnRec)
        (r0 : SubagentResult) (a0 : Nat) (t0 : List SpawnRec),
      executeSubagent w efuel2 aidx2 model chain 0 rA rC = some (r0, a0, t0) →
      r0.success = false →
      (r0.error == some INTERRUPTED_BY_USER) = false →
      w.sigAborted attempt2 = false →
      isRetryableSubagentError r0.error = true →
      attempt2 < MAX_TRANSIENT_RETRIES →
      w.waitAborts attempt2 = false →
      spawnSubagentLoop w efuel2 (remaining + 1) attempt2 aidx2 model chain rA rC
          lastR acc =
        spawnSubagentLoop w efuel2 remaining (attempt2 + 1) a0 model chain
          (if r0.agentId != "" then some r0.agentId else rA)
          (match optTruthy r0.conversationId with
            | some c => some c
            | none => rC)
          (some r0) (acc ++ t0)) ∧
    (spawnSubagent c3WorldB 2 "worker" none none none).map
        (fun p => p.2.map (fun r =>
          (r.model, r.chainIndex, r.existingAgentId, r.existingConversationId))) =
      some [(some "prov/m1", 0, none, none),
            (some "prov/m1", 0, some "A", some "C"),
            (some "prov/m2", 1, some "A", some "C")] := by
  have hbne : ((w.attempts aidx).exitCode != some 0) = true := by
    simp [bne, h4]
  refine ⟨?_, ?_, ?_, ?_, ?_⟩
  · intro nextModel hnm
    conv_lhs => rw [executeSubagent]
    simp only [h1, h2, h3, h5, hbne, Bool.false_eq_true, if_false, if_true,
      beq_self_eq_true, Bool.true_and]
    rw [hnm]
    cases hrec : executeSubagent w (efuel + 1) (aidx + 1) (some nextModel) chain 1 eA eC with
    | none => simp [hrec]
    | some r => simp [hrec]
  · intro p hnm hpt hne
    conv_lhs => rw [executeSubagent]
    simp only [h1, h2, h3, h5, hbne, Bool.false_eq_true, if_false, if_true,
      beq_self_eq_true, Bool.true_and]
    rw [hnm, hpt]
    simp only [hne, if_true]
    cases hrec : executeSubagent w (efuel + 1) (aidx + 1) (some p) [] 0 none none with
    | none => simp [hrec]
    | some r => simp [hrec]
  · conv_lhs => rw [executeSubagent]
    simp [h1, h2, h3, h5, hbne]
  · intro efuel2 remaining attempt2 aidx2 rA rC lastR acc r0 a0 t0 hx hsucc hni hsig hre
      hlt hwa
    conv_lhs => rw [spawnSubagentLoop]
    rw [hx]
    have hge : (decide (attempt2 ≥ MAX_TRANSIENT_RETRIES)) = false := by
      simpa using Nat.not_le.mpr hlt
    simp [hsucc, hni, hsig, hre, hge, waitForRetryDelay, hwa]
  · decide

/-- Witness for C3 (amended): the parent-model fallback of the concrete
fallback scenario, with a fresh identity and the empty chain. -/
theorem c3_chain_advancement_amended_witness :
    (isProviderNotSupportedError (trimString (c3World.attempts 0).stderr) ||
      isUnknownModelError (trimString (c3World.attempts 0).stderr)) = true ∧
    executeSubagent c3World (0 + 2) 0 (some "prov/m1") ["prov/m1"] 0 none none =
      (executeSubagent c3World (0 + 1) (0 + 1) (some "prov/parent") [] 0 none none).map
        (fun r => (r.1, r.2.1,
          (⟨some "prov/m1", ["prov/m1"], 0, none, none⟩ : SpawnRec) :: r.2.2)) :=
  ⟨by decide,
    (c3_chain_advancement_amended c3World 0 0 (some "prov/m1") ["prov/m1"] none none
      rfl rfl rfl (by decide) (by decide)).2.1 "prov/parent" rfl rfl (by decide)⟩

/-- C9: if the cancellation signal fires while a retry backoff wait is
pending, the wait resolves to false without an error, the loop returns an
interrupted result, and no further child is spawned (the trace stays at the
spawns already made); and a result already classified as interrupted returns
immediately, never retrying, regardless of the remaining budget. -/
theorem c9_cancellation_during_backoff (w : World) (efuel remaining attempt aidx : Nat)
    (model : Option String) (chain : List String)
    (retryA retryC : Option String) (lastR : Option SubagentResult) (acc : List SpawnRec)
    (result : SubagentResult) (aidx2 : Nat) (tr : List SpawnRec)
    (hx : executeSubagent w efuel aidx model chain 0 retryA retryC = some (result, aidx2, tr)) :
    ((result.error == some INTERRUPTED_BY_USER) = true →
      spawnSubagentLoop w efuel (remaining + 1) attempt aidx model chain retryA retryC lastR acc =
        some (result, acc ++ tr)) ∧
    (result.success = false →
      (result.error == some INTERRUPTED_BY_USER) = false →
      w.sigAborted attempt = false →
      isRetryableSubagentError result.error = true →
      attempt < MAX_TRANSIENT_RETRIES →
      w.waitAborts attempt = true →
      waitForRetryDelay (computeRetryDelayMs (attempt + 1) (w.jitter attempt))
          (w.waitAborts attempt) = false ∧
      spawnSubagentLoop w efuel (remaining + 1) attempt aidx model chain retryA retryC lastR acc =
        some ({ agentId := jsOr (if result.agentId != "" then some result.agentId else retryA) "",
                conversationId := optTruthy (match optTruthy result.conversationId with
                  | some c => some c
                  | none => retryC),
                report := "", success := false, error := some INTERRUPTED_BY_USER,
                totalTokens := none }, acc ++ tr)) := by
  constructor
  · intro hint
    conv_lhs => rw [spawnSubagentLoop]
    rw [hx]
    by_cases hs : result.success
    · simp [hs]
    · simp [hs, hint]
  · intro hsucc hni hsig hre hlt hwa
    refine ⟨by simp [waitForRetryDelay, hwa], ?_⟩
    conv_lhs => rw [spawnSubagentLoop]
    rw [hx]
    have hge : (decide (attempt ≥ MAX_TRANSIENT_RETRIES)) = false := by
      simpa using Nat.not_le.mpr hlt
    simp [hsucc, hni, hsig, hre, hge, waitForRetryDelay, hwa]

/-- Witness for C9: in the cancellation scenario, the first rate-limited
attempt leads to a backoff wait in which the signal fires; the invocation
returns interrupted with exactly one spawn in the trace. -/
theorem c9_cancellation_during_backoff_witness :
    waitForRetryDelay (computeRetryDelayMs 1 (c9World.jitter 0)) (c9World.waitAborts 0) = false ∧
    spawnSubagentLoop c9World 2 3 0 0 (some "prov/m1") ["prov/m1", "prov/m2"]
        none none none [] =
      some ({ agentId := "A", conversationId := some "C", report := "",
              success := false, error := some INTERRUPTED_BY_USER, totalTokens := none },
        [⟨some "prov/m1", ["prov/m1", "prov/m2"], 0, none, none⟩]) :=
  (c9_cancellation_during_backoff c9World 2 2 0 0 (some "prov/m1")
      ["prov/m1", "prov/m2"] none none none []
      ({ agentId := "A", conversationId := some "C", report := "",
         success := false, error := some "rate limit", totalTokens := none }) 1
      [⟨some "prov/m1", ["prov/m1", "prov/m2"], 0, none, none⟩] (by decide)).2
    (by decide) (by decide) rfl (by decide) (by decide) rfl

/-- Helper: report counts add over trace concatenation. -/
theorem reportCount_append (id : String) (t1 t2 : List TraceEntry) :
    reportCount id (t1 ++ t2) = reportCount id t1 + reportCount id t2 :=
  List.countP_append _ _ _

/-- Helper: the dedup discipline composes over sequential steps. -/
theorem StepOK.comp {s t u : ExecutionState} {t1 t2 : List TraceEntry}
    (h1 : StepOK s t t1) (h2 : StepOK t u t2) : StepOK s u (t1 ++ t2) := by
  intro id
  obtain ⟨m1, z1, le1, in1⟩ := h1 id
  obtain ⟨m2, z2, le2, in2⟩ := h2 id
  refine ⟨fun h => m2 (m1 h), fun h => ?_, ?_, fun h => ?_⟩
  · rw [reportCount_append, z1 h, z2 (m1 h)]
  · rw [reportCount_append]
    rcases Nat.eq_zero_or_pos (reportCount id t1) with h0 | hpos
    · rw [h0]; simpa using le2
    · have hm : id ∈ t.displayedToolCalls := in1 hpos
      rw [z2 hm]
      simpa using le1
  · rw [reportCount_append] at h
    rcases Nat.eq_zero_or_pos (reportCount id t2) with h0 | hpos
    · have h1pos : 1 ≤ reportCount id t1 := by omega
      exact m2 (in1 h1pos)
    · exact in2 hpos

/-- Helper: the discipline only depends on the reported-id set. -/
theorem StepOK.of_eq_displayed {s s' t : ExecutionState} {tr : List TraceEntry}
    (h : StepOK s' t tr) (he : s'.displayedToolCalls = s.displayedToolCalls) :
    StepOK s t tr := by
  intro id
  obtain ⟨m, z, le, inn⟩ := h id
  rw [he] at m z
  exact ⟨m, z, le, inn⟩

/-- Helper: recordToolCall obeys the dedup discipline. -/
theorem stepOK_record (s : ExecutionState) (i n a : String) :
    StepOK s { s with displayedToolCalls := (recordToolCall i n a s.displayedToolCalls).1 }
      (recordToolCall i n a s.displayedToolCalls).2 := by
  intro id
  unfold recordToolCall
  split
  next hguard => simp [reportCount]
  next hguard =>
    have hc : s.displayedToolCalls.contains i = false := by
      cases h : s.displayedToolCalls.contains i with
      | false => rfl
      | true => exact absurd (by rw [h, Bool.or_true]) hguard
    have hinotin : i ∉ s.displayedToolCalls := by simpa using hc
    constructor
    · exact fun h => List.mem_cons_of_mem _ h
    constructor
    · intro h
      have hne : (i == id) = false := by
        simp only [beq_eq_false_iff_ne, ne_eq]
        intro he
        exact hinotin (he ▸ h)
      simp [reportCount, isReportOf, List.countP_cons, List.countP_nil, hne]
    constructor
    · by_cases he : (i == id) = true <;>
        simp [reportCount, isReportOf, List.countP_cons, List.countP_nil, he]
    · intro h
      by_cases he : (i == id) = true
      · have : id = i := (eq_of_beq he).symm
        rw [this]
        exact List.mem_cons_self _ _
      · simp only [Bool.not_eq_true] at he
        simp [reportCount, isReportOf, List.countP_cons, List.countP_nil, he] at h


/-- Helper: one tool-call chunk obeys the dedup discipline. -/
theorem stepOK_processToolCallChunk (tc : ToolCallChunk) (s : ExecutionState) :
    StepOK s (processToolCallChunk tc s).1 (processToolCallChunk tc s).2 := by
  unfold processToolCallChunk
  cases hid : optTruthy tc.tool_call_id with
  | none => intro id; simp [reportCount]
  | some i =>
      simp only []
      split
      next hcont => intro id; simp [reportCount, isReportOf, List.countP_cons, List.countP_nil]
      next hcont =>
        split
        next hname =>
          exact (stepOK_record _ _ _ _).of_eq_displayed rfl
        next hname => intro id; simp [reportCount]

/-- Helper: buffering an approval chunk reports nothing. -/
theorem stepOK_bufferToolCallChunk (tc : ToolCallChunk) (s : ExecutionState) :
    StepOK s (bufferToolCallChunk tc s).1 (bufferToolCallChunk tc s).2 := by
  unfold bufferToolCallChunk
  cases hid : optTruthy tc.tool_call_id with
  | none => intro id; simp [reportCount]
  | some i => intro id; simp [reportCount]

/-- Helper: init events report no tool call. -/
theorem stepOK_handleInitEvent (a c : Option String) (s : ExecutionState) :
    StepOK s (handleInitEvent a c s).1 (handleInitEvent a c s).2 := by
  intro id
  unfold handleInitEvent
  by_cases h : ((optTruthy a).isSome || (optTruthy c).isSome) = true
  · simp [h, reportCount, isReportOf, List.countP_cons, List.countP_nil]
  · simp [h, reportCount]

/-- Helper: the result-event flush of one pending entry obeys the dedup
discipline. -/
theorem stepOK_flushPendingEntry (e : String × PendingCall) (s : ExecutionState) :
    StepOK s (flushPendingEntry e s).1 (flushPendingEntry e s).2 := by
  unfold flushPendingEntry
  split
  · exact (stepOK_record _ e.1 _ _).of_eq_displayed rfl
  · intro id; simp [reportCount]

/-- Helper: the discipline is preserved by folding steps over a list. -/
theorem stepOK_foldSteps {α : Type} (f : α → ExecutionState → ExecutionState × List TraceEntry)
    (hf : ∀ x s, StepOK s (f x s).1 (f x s).2) :
    ∀ (xs : List α) (s : ExecutionState),
      StepOK s (foldSteps f xs s).1 (foldSteps f xs s).2
  | [], s => by intro id; simp [foldSteps, reportCount]
  | x :: xs, s => by
      have h1 := hf x s
      have h2 := stepOK_foldSteps f hf xs (f x s).1
      simpa [foldSteps] using h1.comp h2

/-- Helper: auto-approval obeys the dedup discipline. -/
theorem stepOK_handleAutoApprovalEvent (tc : Option ToolCallChunk) (s : ExecutionState) :
    StepOK s (handleAutoApprovalEvent tc s).1 (handleAutoApprovalEvent tc s).2 := by
  unfold handleAutoApprovalEvent
  cases tc with
  | none => intro id; simp [reportCount]
  | some tc =>
      simp only []
      split
      · exact (stepOK_record _ _ _ _).of_eq_displayed rfl
      · intro id; simp [reportCount]

/-- Helper: a step that changes no state and reports nothing is fine. -/
theorem stepOK_same (s : ExecutionState) (tr : List TraceEntry)
    (h : ∀ id, reportCount id tr = 0) : StepOK s s tr := by
  refine fun id => ⟨fun hm => hm, fun _ => h id, ?_, ?_⟩ <;> simp [h id]

/-- Helper: a result event obeys the dedup discipline, including its flush
of buffered calls. -/
theorem stepOK_handleResultEvent (r : Option String) (ie : Bool)
    (d t : Option Nat) (s : ExecutionState) :
    StepOK s (handleResultEvent r ie d t s).1 (handleResultEvent r ie d t s).2 := by
  unfold handleResultEvent
  by_cases hie : ie = true
  · intro id
    simp [hie, reportCount, isReportOf, List.countP_cons, List.countP_nil]
  · have hfold := stepOK_foldSteps flushPendingEntry stepOK_flushPendingEntry
    simp only [hie, Bool.false_eq_true, if_false]
    refine StepOK.comp (StepOK.of_eq_displayed (hfold _ _) rfl) ?_
    exact stepOK_same _ [TraceEntry.statsUpdated (d.getD 0) (t.getD 0)] (fun id => by
      simp [reportCount, isReportOf, List.countP_cons, List.countP_nil])

/-- Helper: every dispatched event obeys the dedup discipline. -/
theorem stepOK_dispatchStreamEvent (e : StreamEvent) (s : ExecutionState) :
    StepOK s (dispatchStreamEvent e s).1 (dispatchStreamEvent e s).2 := by
  cases e with
  | init a c => exact stepOK_handleInitEvent a c s
  | system subtype a c =>
      by_cases hsub : subtype = some "init"
      · simpa [dispatchStreamEvent, hsub] using stepOK_handleInitEvent a c s
      · intro id; simp [dispatchStreamEvent, hsub, reportCount]
  | message mt tcs tc =>
      by_cases h1 : mt = some "approval_request_message"
      · simpa [dispatchStreamEvent, h1, handleApprovalRequestEvent] using
          stepOK_foldSteps bufferToolCallChunk stepOK_bufferToolCallChunk
            (toolCallList tcs tc) s
      · by_cases h2 : mt = some "tool_call_message"
        · simpa [dispatchStreamEvent, h1, h2, handleToolCallMessageEvent] using
            stepOK_foldSteps processToolCallChunk stepOK_processToolCallChunk
              (toolCallList tcs tc) s
        · intro id; simp [dispatchStreamEvent, h1, h2, reportCount]
  | auto_approval tc => exact stepOK_handleAutoApprovalEvent tc s
  | result r ie d t => exact stepOK_handleResultEvent r ie d t s
  | error e m => intro id; simp [dispatchStreamEvent, reportCount]
  | wrapped e => intro id; simp [dispatchStreamEvent, reportCount]
  | other => intro id; simp [dispatchStreamEvent, reportCount]

/-- Helper: processing one line obeys the dedup discipline. -/
theorem stepOK_processStreamEvent (parse : String → Except String StreamEvent)
    (line : String) (s : ExecutionState) :
    StepOK s (processStreamEvent parse line s).1 (processStreamEvent parse line s).2 := by
  unfold processStreamEvent
  cases parse line with
  | error msg => intro id; simp [reportCount]
  | ok e => exact stepOK_dispatchStreamEvent (unwrapStreamEvent e) s

/-- Helper: processing a whole line sequence obeys the dedup discipline. -/
theorem stepOK_processLines (parse : String → Except String StreamEvent)
    (lines : List String) (s : ExecutionState) :
    StepOK s (processLines parse lines s).1 (processLines parse lines s).2 :=
  stepOK_foldSteps (processStreamEvent parse) (stepOK_processStreamEvent parse) lines s

/-- C4: within one attempt, a given tool-call-id triggers the tool-call
progress report (the addToolCall state-store write plus the onProgress
callback of recordToolCall) at most once over ANY sequence of stream lines,
whatever mix of tool-call-message chunks, approval requests, auto-approvals
and result events reference it; and in the concrete scenario of an
auto-approval for id x followed by a non-error terminal result that still
lists x as pending, the report for x fires exactly once. -/
theorem c4_tool_call_reported_at_most_once :
    (∀ (parse : String → Except String StreamEvent) (lines : List String)
        (eA eC : Option String) (id : String),
      reportCount id (processLines parse lines (initialExecutionState eA eC)).2 ≤ 1) ∧
    reportCount "x" (processLines demoParse ["APPROVAL_X", "AUTO_X", "RESULT_OK"]
        (initialExecutionState none none)).2 = 1 := by
  constructor
  · intro parse lines eA eC id
    exact ((stepOK_processLines parse lines (initialExecutionState eA eC)) id).2.2.1
  · decide

/-- Helper: a failed stdout-parse fallback always carries an error. -/
theorem parseResultFromStdout_failure_has_error (parse : String → Except String StreamEvent)
    (lines : List String) (aid : Option String) :
    (parseResultFromStdout parse lines aid).success = false →
    (parseResultFromStdout parse lines aid).error.isSome := by
  unfold parseResultFromStdout
  split
  next r ie d t heq =>
      intro h
      have hie : ie = true := by simpa using h
      simp [hie]
  next => intro _; simp
  next => intro _; simp

/-- Helper: the nonzero-exit result always carries an error. -/
theorem nonzeroExitResult_has_error (st : ExecutionState) (env : AttemptEnv) :
    (nonzeroExitResult st env).error.isSome := by
  simp [nonzeroExitResult]

/-- Helper: a failed zero-exit result always carries an error. -/
theorem zeroExitResult_failure_has_error (w : World) (st : ExecutionState) (env : AttemptEnv) :
    (zeroExitResult w st env).success = false → (zeroExitResult w st env).error.isSome := by
  unfold zeroExitResult
  split
  next fr hfr =>
      cases ho : optTruthy st.finalError <;> intro hf <;> simp [ho] at hf ⊢
  next hfr =>
      split
      · intro _; simp
      · exact parseResultFromStdout_failure_has_error w.parse _ _

/-- Helper: every failure result of executeSubagent carries an error. -/
theorem executeSubagent_failure_has_error (w : World) :
    ∀ (fuel aidx : Nat) (model : Option String) (chain : List String) (ci : Nat)
      (eA eC : Option String) (r : SubagentResult) (aidx2 : Nat) (tr : List SpawnRec),
      executeSubagent w fuel aidx model chain ci eA eC = some (r, aidx2, tr) →
      r.success = false → r.error.isSome
  | 0, aidx, model, chain, ci, eA, eC, r, aidx2, tr => by
      intro h
      simp [executeSubagent] at h
  | fuel + 1, aidx, model, chain, ci, eA, eC, r, aidx2, tr => by
      intro h hf
      simp only [executeSubagent] at h
      split at h
      · obtain ⟨hr, -⟩ := by simpa using h
        subst hr; simp
      · split at h
        next msg hmsg =>
            obtain ⟨hr, -⟩ := by simpa using h
            subst hr; simp
        next =>
            split at h
            · obtain ⟨hr, -⟩ := by simpa using h
              subst hr; simp [abortedRunResult]
            · split at h
              · split at h
                · split at h
                  next nextModel hnm =>
                      cases hrec : executeSubagent w fuel (aidx + 1) (some nextModel)
                          chain 1 eA eC with
                      | none => rw [hrec] at h; simp at h
                      | some v =>
                          obtain ⟨r0, a0, t0⟩ := v
                          rw [hrec] at h
                          obtain ⟨hr, -⟩ := by simpa using h
                          subst hr
                          exact executeSubagent_failure_has_error w fuel _ _ _ _ _ _ _ _ _ hrec hf
                  next hnm =>
                      split at h
                      next p hp =>
                          split at h
                          · cases hrec : executeSubagent w fuel (aidx + 1) (some p)
                                [] 0 none none with
                            | none => rw [hrec] at h; simp at h
                            | some v =>
                                obtain ⟨r0, a0, t0⟩ := v
                                rw [hrec] at h
                                obtain ⟨hr, -⟩ := by simpa using h
                                subst hr
                                exact executeSubagent_failure_has_error w fuel _ _ _ _ _ _ _ _ _
                                  hrec hf
                          · obtain ⟨hr, -⟩ := by simpa using h
                            subst hr
                            exact nonzeroExitResult_has_error _ _
                      next hp =>
                          obtain ⟨hr, -⟩ := by simpa using h
                          subst hr
                          exact nonzeroExitResult_has_error _ _
                · obtain ⟨hr, -⟩ := by simpa using h
                  subst hr
                  exact nonzeroExitResult_has_error _ _
              · obtain ⟨hr, -⟩ := by simpa using h
                subst hr
                exact zeroExitResult_failure_has_error w _ _ hf


/-- Helper: at chain index 1 one unit of fuel suffices, no recursion. -/
theorem executeSubagent_chainOne_isSome (w : World) (fuel aidx : Nat)
    (model : Option String) (chain : List String) (eA eC : Option String) :
    (executeSubagent w (fuel + 1) aidx model chain 1 eA eC).isSome = true := by
  simp only [executeSubagent]
  split
  · rfl
  · split
    · rfl
    · split
      · rfl
      · split
        · simp
        · rfl

/-- Helper: the parent-model fallback call does not recurse again, because
the re-fetched parent handle equals its own model. -/
theorem executeSubagent_primary_isSome (w : World) (fuel aidx : Nat) (p : String)
    (hp : optTruthy w.parentModelHandle = some p) :
    (executeSubagent w (fuel + 1) aidx (some p) [] 0 none none).isSome = true := by
  simp only [executeSubagent]
  split
  · rfl
  · split
    · rfl
    · split
      · rfl
      · split
        · split
          · simp [hp]
          · rfl
        · rfl

/-- Helper: two units of fuel always suffice for executeSubagent. -/
theorem executeSubagent_isSome (w : World) (fuel aidx : Nat) (model : Option String)
    (chain : List String) (ci : Nat) (eA eC : Option String) :
    (executeSubagent w (fuel + 2) aidx model chain ci eA eC).isSome = true := by
  obtain ⟨g, hg⟩ : ∃ g, fuel + 1 = g := ⟨_, rfl⟩
  have hg1 : ∀ (aidx : Nat) (model : Option String) (chain : List String)
      (eA eC : Option String),
      (executeSubagent w g aidx model chain 1 eA eC).isSome = true := by
    subst hg
    intro aidx model chain eA eC
    exact executeSubagent_chainOne_isSome w fuel aidx model chain eA eC
  have hg2 : ∀ (aidx : Nat) (p : String), optTruthy w.parentModelHandle = some p →
      (executeSubagent w g aidx (some p) [] 0 none none).isSome = true := by
    subst hg
    intro aidx p hp
    exact executeSubagent_primary_isSome w fuel aidx p hp
  have h2 : fuel + 2 = g + 1 := by omega
  rw [h2]
  simp only [executeSubagent]
  split
  · rfl
  · split
    · rfl
    · split
      · rfl
      · split
        · split
          · split
            next nextModel hnm =>
                obtain ⟨⟨r0, a0, t0⟩, hv⟩ := Option.isSome_iff_exists.mp
                  (hg1 (aidx + 1) (some nextModel) chain eA eC)
                rw [hv]
                rfl
            next hnm =>
                split
                next p hpp =>
                    split
                    · obtain ⟨⟨r0, a0, t0⟩, hv⟩ := Option.isSome_iff_exists.mp
                        (hg2 (aidx + 1) p hpp)
                      rw [hv]
                      rfl
                    · rfl
                next => rfl
          · rfl
        · rfl


/-- Helper: the post-loop result carries an error on failure. -/
theorem spawnSubagentExhausted_failure_has_error
    (lastR : Option SubagentResult) (rA rC : Option String)
    (hlast : ∀ lr, lastR = some lr → lr.success = false → lr.error.isSome) :
    (spawnSubagentExhausted lastR rA rC).success = false →
    (spawnSubagentExhausted lastR rA rC).error.isSome := by
  cases lastR with
  | none => intro _; simp [spawnSubagentExhausted]
  | some lr => exact hlast lr rfl

/-- Helper: every failure result of the retry loop carries an error. -/
theorem spawnSubagentLoop_failure_has_error (w : World) (efuel : Nat) :
    ∀ (remaining attempt aidx : Nat) (model : Option String) (chain : List String)
      (rA rC : Option String) (lastR : Option SubagentResult) (acc : List SpawnRec),
      (∀ lr, lastR = some lr → lr.success = false → lr.error.isSome) →
      ∀ (r : SubagentResult) (tr : List SpawnRec),
        spawnSubagentLoop w efuel remaining attempt aidx model chain rA rC lastR acc =
          some (r, tr) →
        r.success = false → r.error.isSome
  | 0, attempt, aidx, model, chain, rA, rC, lastR, acc => by
      intro hlast r tr h hf
      simp only [spawnSubagentLoop] at h
      obtain ⟨hr, -⟩ := by simpa using h
      subst hr
      exact spawnSubagentExhausted_failure_has_error lastR rA rC hlast hf
  | remaining + 1, attempt, aidx, model, chain, rA, rC, lastR, acc => by
      intro hlast r tr h hf
      simp only [spawnSubagentLoop] at h
      split at h
      next heq => simp at h
      next res a2 t0 heq =>
          split at h
          next hsucc =>
              obtain ⟨hr, -⟩ := by simpa using h
              subst hr
              exact executeSubagent_failure_has_error w efuel _ _ _ _ _ _ _ _ _ heq hf
          next hsucc =>
              split at h
              next hint =>
                  obtain ⟨hr, -⟩ := by simpa using h
                  subst hr
                  exact executeSubagent_failure_has_error w efuel _ _ _ _ _ _ _ _ _ heq hf
              next hint =>
                  split at h
                  next hbreak =>
                      obtain ⟨hr, -⟩ := by simpa using h
                      subst hr
                      refine spawnSubagentExhausted_failure_has_error _ _ _ ?_ hf
                      intro lr hlr hfl
                      injection hlr with hlr2
                      subst hlr2
                      exact executeSubagent_failure_has_error w efuel _ _ _ _ _ _ _ _ _ heq hfl
                  next hbreak =>
                      split at h
                      next hwait =>
                          obtain ⟨hr, -⟩ := by simpa using h
                          subst hr
                          rfl
                      next hwait =>
                          refine spawnSubagentLoop_failure_has_error w efuel remaining _ _ _ _
                            _ _ _ _ ?_ r tr h hf
                          intro lr hlr hfl
                          injection hlr with hlr2
                          subst hlr2
                          exact executeSubagent_failure_has_error w efuel _ _ _ _ _ _ _ _ _ heq hfl

/-- Helper: the retry loop is total given two units of attempt fuel. -/
theorem spawnSubagentLoop_isSome (w : World) (k : Nat) :
    ∀ (remaining attempt aidx : Nat) (model : Option String) (chain : List String)
      (rA rC : Option String) (lastR : Option SubagentResult) (acc : List SpawnRec),
      (spawnSubagentLoop w (k + 2) remaining attempt aidx model chain rA rC
        lastR acc).isSome = true
  | 0, attempt, aidx, model, chain, rA, rC, lastR, acc => rfl
  | remaining + 1, attempt, aidx, model, chain, rA, rC, lastR, acc => by
      obtain ⟨⟨res, a2, t0⟩, hexec⟩ := Option.isSome_iff_exists.mp
        (executeSubagent_isSome w k aidx model chain 0 rA rC)
      simp only [spawnSubagentLoop, hexec]
      split
      · rfl
      · split
        · rfl
        · split
          · rfl
          · split
            · rfl
            · exact spawnSubagentLoop_isSome w k remaining (attempt + 1) a2 model chain _ _ _ _


/-- C1: for every world of collaborator behaviours and child outcomes (any
subagent type, prompt, model override, identity arguments, signal timeline
and any sequence of output lines and exit outcomes), spawnSubagent returns
exactly one SubagentResult - the embedding is total once the fuel covers the
bounded model-fallback recursion - and whenever the result is a failure its
error field is present. -/
theorem c1_spawnSubagent_total_and_failure_has_error (w : World) (efuel : Nat) (type : String)
    (userModel existingAgentId existingConversationId : Option String)
    (hfuel : 2 ≤ efuel) :
    ∃ r tr, spawnSubagent w efuel type userModel existingAgentId existingConversationId =
        some (r, tr) ∧ (r.success = false → r.error.isSome) := by
  obtain ⟨k, rfl⟩ : ∃ k, efuel = k + 2 := ⟨efuel - 2, by omega⟩
  cases hc : w.configs type with
  | none =>
      refine ⟨{ agentId := "", conversationId := none, report := "",
                success := false, error := some ("Unknown subagent type: " ++ type),
                totalTokens := none }, [], ?_, ?_⟩
      · simp [spawnSubagent, hc]
      · intro _
        rfl
  | some config =>
      obtain ⟨⟨r, tr⟩, hp⟩ := Option.isSome_iff_exists.mp
        (spawnSubagentLoop_isSome w k (MAX_TRANSIENT_RETRIES + 1) 0 0 _ _
          existingAgentId existingConversationId none [])
      refine ⟨r, tr, ?_, ?_⟩
      · rw [spawnSubagent, hc]
        exact hp
      · intro hf
        exact spawnSubagentLoop_failure_has_error w (k + 2) (MAX_TRANSIENT_RETRIES + 1)
          0 0 _ _ existingAgentId existingConversationId none []
          (fun lr hlr => by simp at hlr) r tr hp hf

/-- Witness for C1 at a concrete world and fuel. -/
theorem c1_spawnSubagent_total_and_failure_has_error_witness :
    2 ≤ 2 ∧ ∃ r tr, spawnSubagent baseWorld 2 "ghost" none none none = some (r, tr) ∧
      (r.success = false → r.error.isSome) :=
  ⟨by decide, c1_spawnSubagent_total_and_failure_has_error baseWorld 2 "ghost"
    none none none (by decide)⟩

end LettaSubagent
